import Mathlib

set_option maxRecDepth 4000

/-
Verification of the song-enrichment crawler (src/src/utils/crawler.py).

The embedding translates the crawler code into Lean:
- preprocess_text, classify_topic, get_lastfm_about, get_about_section,
  process_song and the result filter keep their source names;
- the Genius search and about-page fetch (search_song, get_genius_about)
  are network and HTML wrappers and appear as abstract client functions,
  as does the HTTP transport under get_lastfm_about;
- network effects are made visible as explicit call traces and counters.
-/

/- The literal returned by get_lastfm_about when no wiki content is found,
and compared against by the result filter. -/
def sentinel : String := "About section not available"

/- Python str.replace for a single character: every occurrence of a is
replaced by b, other characters are untouched. -/
def replaceChar (a b : Char) (l : List Char) : List Char :=
  l.map (fun c => if c = a then b else c)

/- The combined effect of the three replace calls in preprocess_text. -/
def collapse (c : Char) : Char :=
  if c = ',' ∨ c = '\n' ∨ c = '\r' then ' ' else c

/- preprocess_text(text): if text is falsy (None or the empty string) it is
returned unchanged, otherwise commas, line feeds and carriage returns are
each replaced by a space via three chained str.replace calls. -/
def preprocess_text : Option String → Option String
  | none => none
  | some s =>
    if s.data.isEmpty then some s
    else some (String.mk (replaceChar '\r' ' ' (replaceChar '\n' ' ' (replaceChar ',' ' ' s.data))))

lemma collapse_steps (c : Char) :
    (if (if (if c = ',' then ' ' else c) = '\n' then ' ' else (if c = ',' then ' ' else c)) = '\r'
      then ' '
      else (if (if c = ',' then ' ' else c) = '\n' then ' ' else (if c = ',' then ' ' else c)))
    = collapse c := by
  by_cases h1 : c = ','
  · subst h1; decide
  · by_cases h2 : c = '\n'
    · subst h2; decide
    · by_cases h3 : c = '\r'
      · subst h3; decide
      · simp [collapse, h1, h2, h3]

lemma replace_chain (l : List Char) :
    replaceChar '\r' ' ' (replaceChar '\n' ' ' (replaceChar ',' ' ' l)) = l.map collapse := by
  induction l with
  | nil => rfl
  | cons c cs ih =>
    simp only [replaceChar, List.map_cons] at ih ⊢
    congr 1
    exact collapse_steps c

lemma preprocess_text_data (s : String) :
    preprocess_text (some s) = some (String.mk (s.data.map collapse)) := by
  cases s with
  | mk l =>
    cases l with
    | nil => rfl
    | cons c cs =>
      simp only [preprocess_text, String.data, List.isEmpty, Bool.false_eq_true, if_false]
      rw [replace_chain]

lemma collapse_not_bad (c : Char) :
    collapse c ≠ ',' ∧ collapse c ≠ '\n' ∧ collapse c ≠ '\r' := by
  unfold collapse
  by_cases h : c = ',' ∨ c = '\n' ∨ c = '\r'
  · rw [if_pos h]; refine ⟨by decide, by decide, by decide⟩
  · rw [if_neg h]
    push_neg at h
    exact h

lemma collapse_idem (c : Char) : collapse (collapse c) = collapse c := by
  by_cases h : c = ',' ∨ c = '\n' ∨ c = '\r'
  · unfold collapse
    rw [if_pos h]; decide
  · unfold collapse
    rw [if_neg h, if_neg h]

/- Python lower(): ASCII lower-casing applied character by character. -/
def lowerStr (s : String) : String := String.mk (s.data.map Char.toLower)

/- w is a prefix of the second list. -/
def leadsWith : List Char → List Char → Bool
  | [], _ => true
  | _ :: _, [] => false
  | a :: as, b :: bs => a == b && leadsWith as bs

/- Python substring containment: `w in text` over character lists. -/
def containsSub (w : List Char) : List Char → Bool
  | [] => w.isEmpty
  | c :: cs => leadsWith w (c :: cs) || containsSub w cs

def occurs (word text : String) : Bool := containsSub word.data text.data

/- The ordered keyword table of classify_topic, in source order (Python
dicts iterate in insertion order). -/
def keywords : List (String × List String) := [
  ("love", ["love", "heart", "romance", "affection"]),
  ("friends", ["friend", "friendship", "buddy", "pal"]),
  ("life", ["life", "living", "existence"]),
  ("news", ["news", "headline", "report", "journalism"]),
  ("holiday", ["holiday", "vacation", "festival"]),
  ("friendship", ["friendship", "companionship", "bond"]),
  ("war", ["war", "battle", "conflict"]),
  ("peace", ["peace", "harmony", "calm"]),
  ("character", ["character", "personality", "traits"])]

/- The nested for loops of classify_topic: rules are scanned top to bottom
and the first rule with any keyword occurring in text.lower() wins. -/
def classify_go : List (String × List String) → String → String
  | [], _ => "other"
  | (topic, words) :: rest, text =>
    if words.any (fun w => occurs w (lowerStr text)) then topic
    else classify_go rest text

def classify_topic (text : String) : String := classify_go keywords text

lemma classify_go_find (rules : List (String × List String)) (text : String) :
    classify_go rules text =
      ((rules.find? (fun p => p.2.any (fun w => occurs w (lowerStr text)))).map Prod.fst).getD
        "other" := by
  induction rules with
  | nil => rfl
  | cons p rest ih =>
    cases p with
    | mk topic words =>
      by_cases h : (words.any (fun w => occurs w (lowerStr text))) = true
      · simp [classify_go, h]
      · simp only [Bool.not_eq_true] at h
        simp [classify_go, h, ih]

/-- C5: classify_topic lower-cases its input and scans the ordered keyword
table top to bottom, returning the label of the first rule any of whose
keywords occurs as a substring, and "other" when no rule matches (this is
exactly what List.find? over the table computes); it is a pure total
function, and "we are just friends" classifies as "friends", never as
"friendship", because "friends" precedes "friendship" in table order. -/
theorem classify_first_rule :
    (∀ text : String,
      classify_topic text =
        (((keywords.find? (fun p => p.2.any (fun w => occurs w (lowerStr text)))).map
          Prod.fst).getD "other")) ∧
    classify_topic "we are just friends" = "friends" ∧
    ("friends" : String) ≠ "friendship" := by
  refine ⟨fun text => classify_go_find keywords text, by decide, by decide⟩

/-- C5 witness: the general first-rule equation evaluated at the concrete
input "we are just friends". -/
theorem classify_first_rule_witness :
    classify_topic "we are just friends" = "friends" :=
  classify_first_rule.2.1

/-- C6: preprocess_text is total, is the identity on null input, its output
on any text contains no comma, line feed or carriage return (each such
character is replaced by a single space and no other character is altered,
which is the character map collapse), and it is idempotent. -/
theorem preprocess_total_idempotent :
    preprocess_text none = none ∧
    (∀ s : String, preprocess_text (some s) = some (String.mk (s.data.map collapse))) ∧
    (∀ s : String,
      ((s.data.map collapse).all
        (fun c => !(c = ',' || c = '\n' || c = '\r'))) = true) ∧
    (∀ x : Option String, preprocess_text (preprocess_text x) = preprocess_text x) := by
  refine ⟨rfl, preprocess_text_data, ?_, ?_⟩
  · intro s
    rw [List.all_eq_true]
    intro c hc
    rw [List.mem_map] at hc
    obtain ⟨a, _, ha⟩ := hc
    obtain ⟨h1, h2, h3⟩ := collapse_not_bad a
    subst ha
    simp [h1, h2, h3]
  · intro x
    cases x with
    | none => rfl
    | some s =>
      have hfun : collapse ∘ collapse = collapse := funext collapse_idem
      rw [preprocess_text_data s, preprocess_text_data]
      simp only [String.data, List.map_map, hfun]

/- The outcome of the single HTTP GET made by get_lastfm_about: a 200
response whose JSON may or may not contain the nested track.wiki.content
field, a non-200 response, or a raised requests.RequestException. -/
inductive LastfmResp where
  | ok (wiki : Option String)
  | httpErr
  | exc
  deriving DecidableEq

/- get_lastfm_about: returns the wiki content when the response is 200 and
the track and wiki fields are present; in every other case (missing field,
non-200 status, caught request exception) the function falls through to
its final line and returns the sentinel string. -/
def get_lastfm_about : LastfmResp → String
  | LastfmResp.ok (some content) => content
  | LastfmResp.ok none => sentinel
  | LastfmResp.httpErr => sentinel
  | LastfmResp.exc => sentinel

/- get_about_section(artist, title), with the two Genius steps and the
last.fm client abstracted: search models search_song(title, artist)
returning a candidate URL or None, genius models get_genius_about(url)
returning the extracted text or None (an empty extraction is also falsy in
the Python truthiness test and is checked separately), lastfm models
get_lastfm_about. The second component counts the calls made to the
secondary (last.fm) client. -/
def get_about_section (search : String → String → Option String)
    (genius : String → Option String) (lastfm : String → String → String)
    (artist title : String) : String × Nat :=
  match search title artist with
  | some url =>
    match genius url with
    | some about =>
      if about.data.isEmpty then (lastfm artist title, 1) else (about, 0)
    | none => (lastfm artist title, 1)
  | none => (lastfm artist title, 1)

/- The primary (Genius) half of get_about_section on its own: the found
about text, when the search yields a URL and the page yields a truthy
(non-empty) extraction. -/
def primary_about (search : String → String → Option String)
    (genius : String → Option String) (title artist : String) : Option String :=
  match search title artist with
  | some url =>
    match genius url with
    | some about => if about.data.isEmpty then none else some about
    | none => none
  | none => none

/-- C1: the resolver queries the primary (Genius) client first; when the
primary yields a found about text, that text is returned at once and the
secondary (last.fm) client receives zero calls; only when the primary
yields nothing is the secondary consulted (exactly once), and its result
is returned, the found wiki content when present and the sentinel
"About section not available" otherwise. -/
theorem fallback_resolver_order (search : String → String → Option String)
    (genius : String → Option String) (tr : String → String → LastfmResp)
    (artist title : String) :
    (∀ about, primary_about search genius title artist = some about →
      get_about_section search genius (fun a t => get_lastfm_about (tr a t)) artist title
        = (about, 0)) ∧
    (primary_about search genius title artist = none →
      get_about_section search genius (fun a t => get_lastfm_about (tr a t)) artist title
        = (get_lastfm_about (tr artist title), 1)) ∧
    (∀ content, get_lastfm_about (LastfmResp.ok (some content)) = content) ∧
    get_lastfm_about (LastfmResp.ok none) = sentinel ∧
    get_lastfm_about LastfmResp.httpErr = sentinel ∧
    get_lastfm_about LastfmResp.exc = sentinel := by
  refine ⟨?_, ?_, fun content => rfl, rfl, rfl, rfl⟩
  · intro about h
    unfold primary_about at h
    unfold get_about_section
    cases hs : search title artist with
    | none => rw [hs] at h; exact absurd h (by simp)
    | some url =>
      rw [hs] at h
      dsimp only at h ⊢
      cases hg : genius url with
      | none => rw [hg] at h; exact absurd h (by simp)
      | some ab =>
        rw [hg] at h
        dsimp only at h ⊢
        by_cases he : ab.data.isEmpty
        · rw [if_pos he] at h; exact absurd h (by simp)
        · rw [if_neg he] at h
          rw [if_neg he]
          exact congrArg (fun x => (x, 0)) (Option.some.inj h)
  · intro h
    unfold primary_about at h
    unfold get_about_section
    cases hs : search title artist with
    | none => rfl
    | some url =>
      rw [hs] at h
      dsimp only at h ⊢
      cases hg : genius url with
      | none => rfl
      | some ab =>
        rw [hg] at h
        dsimp only at h ⊢
        by_cases he : ab.data.isEmpty
        · rw [if_pos he]
        · rw [if_neg he] at h; exact absurd h (by simp)

def searchW : String → String → Option String := fun _ _ => some "u"

def geniusW : String → Option String := fun _ => some "X"

def noSearch : String → String → Option String := fun _ _ => none

def noGenius : String → Option String := fun _ => none

def trNone : String → String → LastfmResp := fun _ _ => LastfmResp.ok none

/-- C1 witness: with a primary that finds "X" the resolver returns "X" and
makes zero secondary calls; with a primary that finds nothing it returns
the secondary result (here the sentinel) after exactly one secondary
call. -/
theorem fallback_resolver_order_witness :
    get_about_section searchW geniusW (fun a t => get_lastfm_about (trNone a t)) "ar" "ti"
      = ("X", 0) ∧
    get_about_section noSearch noGenius (fun a t => get_lastfm_about (trNone a t)) "ar" "ti"
      = (sentinel, 1) :=
  ⟨(fallback_resolver_order searchW geniusW trNone "ar" "ti").1 "X" rfl,
   (fallback_resolver_order noSearch noGenius trNone "ar" "ti").2.1 rfl⟩

/- A cell of the title column: pandas may hand process_song a value that is
not a string, which the isinstance check rejects. -/
inductive PyStr where
  | str (s : String)
  | nonStr
  deriving DecidableEq

/- One row of the sampled frame, with the columns the crawler touches.
lyrics is an Option so that a missing or non-string lyrics cell (which
makes the classify line raise) is representable. about_section and topic
are the two cells process_song writes. -/
structure Row where
  id : Nat
  title : PyStr
  artist : String
  lyrics : Option String
  about_section : Option String
  topic : Option String
  deriving DecidableEq

/- Python str.strip() yields a falsy (empty) string exactly when every
character of the string is whitespace. -/
def pyIsSpace (c : Char) : Bool :=
  c == ' ' || c == '\t' || c == '\n' || c == '\r' || c == '\x0b' || c == '\x0c'

def title_blank (t : String) : Bool := t.data.all pyIsSpace

/- The validation test of process_song:
not isinstance(song_title, str) or not song_title.strip(). -/
def invalid_title : PyStr → Bool
  | PyStr.nonStr => true
  | PyStr.str t => title_blank t

/- The exceptions that can arise in the body of process_song: the explicit
ValueError on an invalid title, a KeyError or TypeError at the classify
line when the lyrics cell is missing or not a string, and any exception
escaping the resolver (for example a JSON decode error in the network
layer, which the inner except clauses do not catch). -/
inductive PyErr where
  | valueError
  | keyError
  | lookupExc
  deriving DecidableEq

/- The try block of process_song. The lookup argument stands for
get_about_section; Except.error models an exception escaping it. The
second component records the (artist, title) resolver calls made, so that
a row that performs no lookup provably performs no network access. -/
def process_song_body (lookup : String → String → Except Unit String) (row : Row) :
    Except PyErr Row × List (String × String) :=
  match row.title with
  | PyStr.nonStr => (Except.error PyErr.valueError, [])
  | PyStr.str t =>
    if title_blank t then (Except.error PyErr.valueError, [])
    else
      match lookup row.artist t with
      | Except.error _ => (Except.error PyErr.lookupExc, [(row.artist, t)])
      | Except.ok about =>
        match row.lyrics with
        | none => (Except.error PyErr.keyError, [(row.artist, t)])
        | some lyr =>
          (Except.ok { row with
              about_section := if about.data.isEmpty then none
                else preprocess_text (some about),
              topic := some (classify_topic (lyr ++ " " ++
                ((if about.data.isEmpty then none
                  else preprocess_text (some about)).getD ""))) },
           [(row.artist, t)])

/- process_song: the try block with its except clause, which converts any
exception into a None result for the row. -/
def process_song (lookup : String → String → Except Unit String) (row : Row) :
    Option Row × List (String × String) :=
  match process_song_body lookup row with
  | (Except.ok r, calls) => (some r, calls)
  | (Except.error _, calls) => (none, calls)

/- executor.map(process_song, rows): one result per row, in input order. -/
def collect_results (lookup : String → String → Except Unit String)
    (rows : List Row) : List (Option Row) :=
  rows.map (fun row => (process_song lookup row).1)

/- The filter comprehension (the Python variable is named matches, a
reserved word here): keep result if result is not None and result
about_section differs from the sentinel string. -/
def matches_list (results : List (Option Row)) : List Row :=
  results.filterMap (fun res =>
    match res with
    | none => none
    | some r => if r.about_section = some sentinel then none else some r)

lemma mem_matches_iff (results : List (Option Row)) (r : Row) :
    r ∈ matches_list results ↔ some r ∈ results ∧ r.about_section ≠ some sentinel := by
  unfold matches_list
  rw [List.mem_filterMap]
  constructor
  · rintro ⟨o, ho, hf⟩
    cases o with
    | none => exact absurd hf (by simp)
    | some r2 =>
      dsimp only at hf
      by_cases hs : r2.about_section = some sentinel
      · rw [if_pos hs] at hf
        exact absurd hf (by simp)
      · rw [if_neg hs] at hf
        obtain rfl := Option.some.inj hf
        exact ⟨ho, hs⟩
  · rintro ⟨ho, hs⟩
    exact ⟨some r, ho, by dsimp only; rw [if_neg hs]⟩

/-- C7: a row whose title cell is not a string or is blank is rejected
before any source lookup: process_song returns None for it and its
resolver call trace is empty, so zero network calls are made, whatever the
source clients would have answered. -/
theorem invalid_title_zero_calls (lookup : String → String → Except Unit String)
    (row : Row) (h : invalid_title row.title = true) :
    process_song lookup row = (none, []) := by
  unfold process_song process_song_body
  cases ht : row.title with
  | nonStr => rfl
  | str t =>
    rw [ht] at h
    unfold invalid_title at h
    dsimp only
    rw [if_pos h]

def lookupEmpty : String → String → Except Unit String := fun _ _ => Except.ok ""

def rowBlank : Row := ⟨2, PyStr.str " ", "Artist B", some "x", none, none⟩

/-- C7 witness: a row whose title is the single blank " " satisfies the
validation predicate and is dropped with an empty call trace. -/
theorem invalid_title_zero_calls_witness :
    invalid_title rowBlank.title = true ∧ process_song lookupEmpty rowBlank = (none, []) :=
  ⟨by decide, invalid_title_zero_calls lookupEmpty rowBlank (by decide)⟩

/-- C8: any exception raised inside the body of process_song is caught at
the row boundary and converted to a None result carrying the same call
trace, so process_song is total and never propagates an exception; and the
collected result at each position of the coordinator map depends only on
that position of the input, so one row failing never disturbs the results
of its sibling rows. -/
theorem row_failure_isolation :
    (∀ (lookup : String → String → Except Unit String) (row : Row) (e : PyErr)
        (calls : List (String × String)),
      process_song_body lookup row = (Except.error e, calls) →
        process_song lookup row = (none, calls)) ∧
    (∀ (lookup : String → String → Except Unit String) (rows : List Row) (i : Nat),
      (collect_results lookup rows)[i]? =
        Option.map (fun row => (process_song lookup row).1) rows[i]?) := by
  constructor
  · intro lookup row e calls h
    unfold process_song
    rw [h]
  · intro lookup rows i
    unfold collect_results
    rw [List.getElem?_map]

def rowNoLyrics : Row := ⟨3, PyStr.str "T", "Artist C", none, none, none⟩

/-- C8 witness: a row whose lyrics cell is missing raises at the classify
line; the exception is caught and the row yields None, after its one
resolver call. -/
theorem row_failure_isolation_witness :
    process_song lookupEmpty rowNoLyrics = (none, [("Artist C", "T")]) :=
  row_failure_isolation.1 lookupEmpty rowNoLyrics PyErr.keyError [("Artist C", "T")] rfl

lemma body_ok_shape (lookup : String → String → Except Unit String) (row r : Row)
    (calls : List (String × String))
    (h : process_song_body lookup row = (Except.ok r, calls)) :
    r.id = row.id ∧ r.title = row.title ∧ r.artist = row.artist ∧ r.lyrics = row.lyrics := by
  unfold process_song_body at h
  split at h
  · exact absurd h (by simp)
  · split at h
    · exact absurd h (by simp)
    · split at h
      · exact absurd h (by simp)
      · split at h
        · exact absurd h (by simp)
        · rw [Prod.mk.injEq] at h
          obtain ⟨h1, _⟩ := h
          obtain rfl := Except.ok.inj h1
          exact ⟨rfl, rfl, rfl, rfl⟩

/-- C10: enrichment has the frame property: whenever process_song returns a
record for a row, that record agrees with the input row on id, title,
artist and lyrics; only the about_section and topic cells are written. -/
theorem enrich_frame (lookup : String → String → Except Unit String) (row r : Row)
    (h : (process_song lookup row).1 = some r) :
    r.id = row.id ∧ r.title = row.title ∧ r.artist = row.artist ∧ r.lyrics = row.lyrics := by
  unfold process_song at h
  cases hb : process_song_body lookup row with
  | mk res calls =>
    rw [hb] at h
    cases res with
    | error e => exact absurd h (by simp)
    | ok r2 =>
      dsimp only at h
      obtain rfl := Option.some.inj h
      exact body_ok_shape lookup row r2 calls hb

def row0 : Row := ⟨1, PyStr.str "Love Song", "Artist A", some "la la", none, none⟩

def row0out : Row :=
  ⟨1, PyStr.str "Love Song", "Artist A", some "la la", none, some "other"⟩

/-- C10 witness: the concrete row0, successfully enriched, keeps its id,
title, artist, and lyrics. -/
theorem enrich_frame_witness :
    row0out.id = row0.id ∧ row0out.title = row0.title ∧
    row0out.artist = row0.artist ∧ row0out.lyrics = row0.lyrics :=
  enrich_frame lookupEmpty row0 row0out (by decide)

def lastfmEmptyWiki : String → String → String :=
  fun _ _ => get_lastfm_about (LastfmResp.ok (some ""))

/- An end-to-end resolver in which the Genius search finds nothing and the
last.fm response is a 200 whose wiki content is the empty string. -/
def lookupC2 : String → String → Except Unit String :=
  fun a t => Except.ok (get_about_section noSearch noGenius lastfmEmptyWiki a t).1

/-- C2 counterexample: when the resolved about text is the empty string
(here: last.fm answers 200 with an empty wiki content), process_song
stores None in about_section, yet the row passes the filter (None differs
from the sentinel) and reaches the output with a null about_section — the
claim that every output row has a usable non-null about_section, rows
without one being excluded entirely, is false on this input. -/
theorem output_nonnull_cex :
    (process_song lookupC2 row0).1 = some row0out ∧
    matches_list [(process_song lookupC2 row0).1] = [row0out] ∧
    row0out.about_section = none := ⟨by decide, by decide, rfl⟩

/-- C2 amended: every row of the final output comes from a collected result
that is not None and its about_section differs from the sentinel; the
no-null guarantee however does not hold, since a row whose about text
resolved to the empty string is emitted with a null about_section. -/
theorem output_nonnull_amended (results : List (Option Row)) (r : Row)
    (h : r ∈ matches_list results) :
    some r ∈ results ∧ r.about_section ≠ some sentinel :=
  (mem_matches_iff results r).mp h

def rowGood : Row := ⟨4, PyStr.str "S", "Artist D", some "x", some "great song", some "other"⟩

/-- C2 amended witness: a concrete surviving row is a member of the
collected results and carries a non-sentinel about_section. -/
theorem output_nonnull_amended_witness :
    some rowGood ∈ [some rowGood] ∧ rowGood.about_section ≠ some sentinel :=
  output_nonnull_amended [some rowGood] rowGood (by decide)

/-- C3: the filter keeps exactly the collected entries that are not None
and whose about_section differs from the sentinel string: a row is in the
output iff it occurs among the results and its about_section is not
"About section not available", and every survivor is passed on unchanged
(it is the very row object found among the results). -/
theorem sentinel_filter_exact (results : List (Option Row)) (r : Row) :
    r ∈ matches_list results ↔ some r ∈ results ∧ r.about_section ≠ some sentinel :=
  mem_matches_iff results r

/-- C3 witness: the filter equivalence instantiated on a two-entry result
list: the genuine row survives, and membership follows from the
equivalence applied in both directions. -/
theorem sentinel_filter_exact_witness :
    rowGood ∈ matches_list [none, some rowGood] :=
  (sentinel_filter_exact [none, some rowGood] rowGood).mpr ⟨by decide, by decide⟩

def lastfmSentinelWiki : String → String → String :=
  fun _ _ => get_lastfm_about (LastfmResp.ok (some sentinel))

/- A resolver in which Genius finds nothing and last.fm answers 200 with a
genuine wiki content that happens to equal the sentinel string. -/
def lookupC9 : String → String → Except Unit String :=
  fun a t => Except.ok (get_about_section noSearch noGenius lastfmSentinelWiki a t).1

/-- C9 counterexample: the secondary source is available and returns a
found wiki content — which happens to equal the string
"About section not available" — yet the filter excludes the row; so the
post-normalization equality check does not match exactly the rows for
which both sources were unavailable: it also matches genuine content equal
to the sentinel. -/
theorem sentinel_overload_cex :
    get_lastfm_about (LastfmResp.ok (some sentinel)) = sentinel ∧
    (process_song lookupC9 row0).1 =
      some { row0 with about_section := some sentinel, topic := some "other" } ∧
    matches_list [(process_song lookupC9 row0).1] = [] := ⟨rfl, by decide, by decide⟩

/-- C9 amended: the sentinel contains no comma, line feed or carriage
return and is a fixed point of preprocess_text, and every unavailable
outcome of the secondary source (missing wiki field, non-200 response,
request exception) produces the sentinel, so the post-normalization
equality test of the filter excludes every row whose about_section equals
the sentinel — in particular every row for which both sources were
unavailable; the match is however not exact, since genuine wiki content
equal to the sentinel string is excluded as well. -/
theorem sentinel_fixedpoint_amended :
    preprocess_text (some sentinel) = some sentinel ∧
    get_lastfm_about (LastfmResp.ok none) = sentinel ∧
    get_lastfm_about LastfmResp.httpErr = sentinel ∧
    get_lastfm_about LastfmResp.exc = sentinel ∧
    (∀ results r, r ∈ matches_list results → r.about_section ≠ some sentinel) :=
  ⟨rfl, rfl, rfl, rfl, fun results r h => ((mem_matches_iff results r).mp h).2⟩

/-- C9 amended witness: the membership conjunct applied to a concrete
surviving row. -/
theorem sentinel_fixedpoint_amended_witness :
    rowGood.about_section ≠ some sentinel :=
  sentinel_fixedpoint_amended.2.2.2.2 [some rowGood] rowGood (by decide)

/- The Retry object mounted on the requests session (lines 19-24 of the
source). -/
structure RetryConfig where
  total : Nat
  backoff_factor : Nat
  status_forcelist : List Nat
  allowed_methods : List String
  deriving DecidableEq

def retry_strategy : RetryConfig :=
  ⟨5, 1, [429, 500, 502, 503, 504], ["HEAD", "GET", "OPTIONS"]⟩

/- The retry loop of the mounted adapter, following the urllib3 Retry
semantics: a response whose status is in the forcelist, for an allowed
method, is retried while the retry budget lasts; total counts the retries
allowed after the initial request, so the budget of requests is total + 1
and exhausting it raises MaxRetryError (the error outcome). The transport
maps the index of the attempt to the HTTP status it answers; the first
component of the result is the number of requests actually issued. -/
def session_go (cfg : RetryConfig) (method : String) (transport : Nat → Nat) :
    Nat → Nat → Nat × Except Unit Nat
  | 0, issued => (issued, Except.error ())
  | fuel + 1, issued =>
    if transport issued ∈ cfg.status_forcelist ∧ method ∈ cfg.allowed_methods then
      session_go cfg method transport fuel (issued + 1)
    else (issued + 1, Except.ok (transport issued))

/- One session.get against the mounted adapter. -/
def session_send (cfg : RetryConfig) (method : String) (transport : Nat → Nat) :
    Nat × Except Unit Nat :=
  session_go cfg method transport (cfg.total + 1) 0

/- get_lastfm_about performs its GET with requests.get, not with the
session carrying the retry adapter (which is in any case mounted only for
https URLs while the last.fm endpoint is plain http), so exactly one
request is issued whatever its status. -/
def lastfm_get (transport : Nat → Nat) : Nat × Nat := (1, transport 0)

/- The urllib3 exponential backoff: backoff_factor times 2 to the number of
consecutive failed attempts minus one. -/
def backoff_time (cfg : RetryConfig) (consecutive : Nat) : Nat :=
  cfg.backoff_factor * 2 ^ (consecutive - 1)

def always503 : Nat → Nat := fun _ => 503

lemma always503_transient (n : Nat) : always503 n ∈ retry_strategy.status_forcelist := by
  show (503 : Nat) ∈ retry_strategy.status_forcelist
  decide

lemma session_go_step (cfg : RetryConfig) (method : String) (transport : Nat → Nat)
    (fuel issued : Nat) (hst : transport issued ∈ cfg.status_forcelist)
    (hm : method ∈ cfg.allowed_methods) :
    session_go cfg method transport (fuel + 1) issued =
      session_go cfg method transport fuel (issued + 1) := by
  conv_lhs => rw [session_go]
  rw [if_pos ⟨hst, hm⟩]

lemma session_go_stop (cfg : RetryConfig) (method : String) (transport : Nat → Nat)
    (fuel issued : Nat)
    (h : ¬(transport issued ∈ cfg.status_forcelist ∧ method ∈ cfg.allowed_methods)) :
    session_go cfg method transport (fuel + 1) issued =
      (issued + 1, Except.ok (transport issued)) := by
  conv_lhs => rw [session_go]
  rw [if_neg h]

lemma session_go_all_transient (cfg : RetryConfig) (method : String)
    (transport : Nat → Nat) (hm : method ∈ cfg.allowed_methods)
    (h : ∀ n, transport n ∈ cfg.status_forcelist) :
    ∀ fuel issued, session_go cfg method transport fuel issued =
      (issued + fuel, Except.error ()) := by
  intro fuel
  induction fuel with
  | zero => intro issued; rfl
  | succ f ih =>
    intro issued
    rw [session_go_step cfg method transport f issued (h issued) hm, ih (issued + 1)]
    congr 1
    omega

/-- C4 counterexample: against a transport that always answers the
transient status 503, the secondary (last.fm) lookup issues exactly 1
request — requests.get is not mounted with the retry adapter, so no
retrying happens — and even the primary session issues 6 requests (the
initial one plus total = 5 retries), so neither Source Client performs
exactly 5 attempts as claimed. -/
theorem retry_ceiling_cex :
    (lastfm_get always503).1 = 1 ∧
    (session_send retry_strategy "GET" always503).1 = 6 ∧
    (lastfm_get always503).1 ≠ 5 ∧
    (session_send retry_strategy "GET" always503).1 ≠ 5 := by
  refine ⟨rfl, ?_, by decide, ?_⟩
  · rw [session_send, session_go_all_transient retry_strategy "GET" always503 (by decide)
      always503_transient]
    rfl
  · rw [session_send, session_go_all_transient retry_strategy "GET" always503 (by decide)
      always503_transient]
    decide

/-- C4 amended: the retry policy of the source — total = 5 retries,
backoff factor 1 (so the first backoff is 1 time unit), transient statuses
429/500/502/503/504, safe methods HEAD/GET/OPTIONS — is mounted only on
the primary session: a safe request whose transport always answers a
transient status is retried with that policy and fails after exactly 6
issued requests (the initial attempt plus the 5 retries), while a
non-transient first answer is returned after exactly 1 request with no
retry; the secondary (last.fm) lookup bypasses the session entirely and
always issues exactly 1 request. -/
theorem retry_only_primary :
    retry_strategy.total = 5 ∧
    retry_strategy.backoff_factor = 1 ∧
    retry_strategy.status_forcelist = [429, 500, 502, 503, 504] ∧
    retry_strategy.allowed_methods = ["HEAD", "GET", "OPTIONS"] ∧
    backoff_time retry_strategy 1 = 1 ∧
    (∀ transport : Nat → Nat, (∀ n, transport n ∈ retry_strategy.status_forcelist) →
      session_send retry_strategy "GET" transport = (6, Except.error ())) ∧
    (∀ transport : Nat → Nat, transport 0 ∉ retry_strategy.status_forcelist →
      session_send retry_strategy "GET" transport = (1, Except.ok (transport 0))) ∧
    (∀ transport : Nat → Nat, (lastfm_get transport).1 = 1) := by
  refine ⟨rfl, rfl, rfl, rfl, rfl, ?_, ?_, fun _ => rfl⟩
  · intro transport h
    rw [session_send, session_go_all_transient retry_strategy "GET" transport (by decide) h]
    rfl
  · intro transport h
    rw [session_send,
      session_go_stop retry_strategy "GET" transport retry_strategy.total 0
        (fun hc => h hc.1)]

/-- C4 amended witness: the all-transient branch at the concrete always-503
transport, the no-retry branch at a transport answering 200, and the
single-attempt secondary. -/
theorem retry_only_primary_witness :
    session_send retry_strategy "GET" always503 = (6, Except.error ()) ∧
    session_send retry_strategy "GET" (fun _ => 200) = (1, Except.ok 200) ∧
    (lastfm_get always503).1 = 1 :=
  ⟨retry_only_primary.2.2.2.2.2.1 always503 always503_transient,
   retry_only_primary.2.2.2.2.2.2.1 (fun _ => 200) (by decide),
   retry_only_primary.2.2.2.2.2.2.2 always503⟩
